import Mathlib

/-!
Verification of `analyzetestgroups.py` (testdata_tools): a shallow embedding
of its data model (`Verdict`, `Submission`, `Problem`), its log-interpreting
state machine (`Problem.__init__`), and its reporting passes (`print_table`,
`check_distinguished`), together with theorems settling the behavioural
claims about them.

Modelling conventions:
- A log line is embedded as the result of `Problem._find_matching_pattern`:
  an abstract event carrying the regex's captured fields (`Line`).  Secret
  group numbers are modelled as `Nat` (the regexes capture `\d+`; the tool's
  own docstring assumes groups `group1`, `group2`, ...).
- Python floats (CPU times) are modelled as `Rat`; the program only parses,
  stores and takes maxima of them, all of which are order-faithful.
- `sys.exit`, failed `assert`s and uncaught exceptions (`KeyError` from a
  dict subscript, `NameError` from an unbound local) are modelled by the
  `Except Crash` monad; `logging.error/warning/info` calls are modelled by
  appending a `Msg` value to an explicit log list.
- The filesystem under `<problemdir>/submissions/` is a parameter
  `fs : String → String → PTree` mapping (expected-total-grade category,
  submission name) to the source tree at
  `problempath / "submissions" / subdir[category] / name`.  A file is a
  list of lines, each line abstracted to the result of
  `expected_score_pattern.search`: `none` (no match) or `some gs` (the
  whitespace-split grade tokens of the match's `grades` group).
-/

namespace ATG

/-- CPU times (Python floats) modelled as rationals. -/
abbrev Time := Rat

/-- A diagnostic message emitted through `logging`, with its payload.
The constructors correspond one-to-one to the `logging.error` /
`logging.warning` / `logging.info` call sites of `analyzetestgroups.py`. -/
inductive Msg
  /-- `logging.error("Line %d of verifyproblem: AC grade for secret group
  requires at least one test case", lineno)` -/
  | acNoTestCase (lineno : Nat)
  /-- `logging.warning("AC submission %s contains EXPECTED_GRADES. (Ignored,
  consider removing it.)", self)` -/
  | redundantGrades (name : String)
  /-- `logging.error("Unexpected group name for submission %s.", sub)` -/
  | unexpectedGroupName (name : String)
  /-- `logging.warning("%s: Unexpected grade %s on test group %s. (Expected %s).", ...)` -/
  | unexpectedGrade (name grade group expected : String)
  /-- `logging.info("%s: No hint found. Consider adding ...", sub, expectations)` -/
  | noHint (name suggestion : String)
  /-- `logging.warning("No submission distinguishes test groups %s and %s. ...", i, j)` -/
  | notDistinguished (i j : String)
  deriving DecidableEq, Repr

/-- Ways the Python process can terminate abnormally during analysis. -/
inductive Crash
  /-- `sys.exit("FATAL: Problem directory does not match log file ...")` -/
  | fatalMismatch (problemname : String)
  /-- a failed `assert sub is not None` -/
  | assertionError
  /-- `NameError`: reading a local variable that was never assigned -/
  | nameError (var : String)
  /-- `KeyError` raised by a dict subscript `d[key]` -/
  | keyError (key : String)
  deriving DecidableEq, Repr

/-- Class `Verdict`: the grader's verdict for a single test group. -/
structure Verdict where
  grade : String
  time : Option Time
  deriving DecidableEq, Repr

/-- `Verdict.__init__`: `self.grade = grade; if grade == "AC": self.time =
time; else: self.time = None`. -/
def Verdict.make (grade : String) (time : Option Time) : Verdict :=
  { grade := grade, time := if grade = "AC" then time else none }

/-- A source tree under a submission's path: either a single file (given by
its lines, each abstracted to its `expected_score_pattern` match result) or
a directory with an ordered list of children (`Path.iterdir` order). -/
inductive PTree
  | file (lines : List (Option (List String)))
  | dir (children : List PTree)

/-- `Submission._get_expected_grades(path)`.  For a file, the first line
matched by `expected_score_pattern` yields `{str(i + 1): g for (i, g) in
enumerate(gradelist)}`; otherwise `{}`.  For a directory, the Python loop is
`for child in path.iterdir(): grades = rec(child); if grades is not None:
return grades` — but the recursion never returns `None` (it returns `{}`
when nothing is found), so the guard is always true and the loop returns the
first child's result unconditionally; an empty directory falls through to
`return {}`. -/
def getExpectedGrades : PTree → List (String × String)
  | .file lines =>
      match lines.findSome? id with
      | some gradelist => gradelist.enum.map (fun p => (toString (p.1 + 1), p.2))
      | none => []
  | .dir [] => []
  | .dir (child :: _) => getExpectedGrades child

/-- Python `dict` subscript `d[k]` on an association list: first binding
wins (keys are unique in the dicts the program builds). -/
def alookup {β : Type} : List (String × β) → String → Option β
  | [], _ => none
  | (k, v) :: rest, key => if k = key then some v else alookup rest key

/-- `OrderedDict` assignment `d[k] = v`: update in place if the key exists
(keeping its position), else append at the end. -/
def odSet {β : Type} : List (String × β) → String → β → List (String × β)
  | [], k, v => [(k, v)]
  | (k', v') :: rest, k, v =>
      if k' = k then (k, v) :: rest else (k', v') :: odSet rest k v

/-- Class `Submission` (the fields the analysis reads/writes).
`expectedGrades` models the `_expected_grades` attribute. -/
structure Submission where
  name : String
  expected_total_grade : String
  verdict : List (String × Verdict)
  points : Option Nat
  maxtime : Option Time
  expectedGrades : List (String × String)
  deriving DecidableEq, Repr

/-- `Submission.subdir` lookup: `KeyError` (modelled as `none`) for any
category outside the four listed ones. -/
def subdir (g : String) : Option String :=
  if g = "AC" then some ("accepted")
  else if g = "PAC" then some ("partially_accepted")
  else if g = "WA" then some ("wrong_answer")
  else if g = "TLE" then some ("time_limit_exceeded")
  else none

/-- `Submission.__init__(problempath, expected_total_grade, name)`:
builds the submission record, scanning the source tree `fs ty nm` for the
expected-grades hint, and logs the redundancy warning when an AC-category
submission carries a hint.  The `subdir` lookup raises `KeyError` for an
unknown category. -/
def Submission.make (fs : String → String → PTree) (ty nm : String) :
    Except Crash (Submission × List Msg) :=
  match subdir ty with
  | none => .error (.keyError ty)
  | some _ =>
      let eg := getExpectedGrades (fs ty nm)
      let logs := if eg.length > 0 ∧ ty = "AC" then [Msg.redundantGrades nm] else []
      .ok ({ name := nm, expected_total_grade := ty, verdict := [],
             points := none, maxtime := none, expectedGrades := eg }, logs)

/-- `Submission.expected_grade(self, i)`: `"AC"` when the total category is
AC, else the dict subscript `self._expected_grades[i]` (which raises
`KeyError` when `i` is not a key). -/
def Submission.expectedGrade (s : Submission) (i : String) :
    Except Crash String :=
  if s.expected_total_grade = "AC" then .ok ("AC")
  else
    match alookup s.expectedGrades i with
    | some g => .ok g
    | none => .error (.keyError i)

/-- `Submission.has_expected_grades(self)` (the method's return value when
actually called; note that `print_table` references the method object
without calling it). -/
def Submission.hasExpectedGrades (s : Submission) : Bool :=
  s.expected_total_grade = "AC" ∨ s.expectedGrades.length > 0

/-- A log line after `Problem._find_matching_pattern`: the matched pattern
with its captured fields, or `noMatch` for the verifier's unrelated chatter. -/
inductive Line
  /-- `FIRST_LINE`, capturing `problemname`. -/
  | firstLine (problemname : String)
  /-- `START_SUBMISSION`, capturing `type` and `name`. -/
  | startSubmission (ty nm : String)
  /-- `START_TESTGROUP` (the captured group number is unused by the handler). -/
  | startTestgroup
  /-- `AC_TC_RESULT`, capturing `time` and `case`. -/
  | acTcResult (time : Time) (caseName : String)
  /-- `TESTGROUP_GRADE`, capturing `type` (`sample = true` means the sample
  group), the secret-group `number`, and `grade`. -/
  | testgroupGrade (sample : Bool) (number : Nat) (grade : String)
  /-- `END_SUBMISSION`, capturing the optional `points` and `maxtime`. -/
  | endSubmission (points : Option Nat) (maxtime : Time)
  /-- `TIMELIMIT`, capturing `limit` and `safety`. -/
  | timelimit (limit safety : Nat)
  /-- a line matching none of the patterns -/
  | noMatch

/-- `max(ts)` on a Python list: `none` models the "list is empty" case
(the program guards every use with `if len(tc_times) > 0`). -/
def listMax : List Time → Option Time
  | [] => none
  | t :: rest => some (rest.foldl max t)

/-- The local variables of the `Problem.__init__` line loop.  `arr` is the
heap of every `Submission` object created so far (`sub` aliases into it, and
committed submissions stay mutable through that alias until `sub` is
rebound, exactly as in Python); `committed` holds the indices appended to
`self.submissions`; `cur` is the `sub` variable (`none` = `None`); `tcTimes`
and `problemname` are `none` while the corresponding Python local is still
unbound (reading it then raises `NameError`). -/
structure PState where
  arr : List Submission
  committed : List Nat
  cur : Option Nat
  tcTimes : Option (List Time)
  tcId : Option String
  lineno : Nat
  maxGroupId : Nat
  problemname : Option String
  timelimits : Option (Nat × Nat)
  logs : List Msg
  deriving Repr

/-- The loop's initial state (`sub = tc_id = None`, `lineno = max_group_id = 0`). -/
def initState : PState :=
  { arr := [], committed := [], cur := none, tcTimes := none, tcId := none,
    lineno := 0, maxGroupId := 0, problemname := none, timelimits := none,
    logs := [] }

/-- In-place update of the element at index `i` (mutation of the object
`sub` points to). -/
def modifyIdx {α : Type} (l : List α) (i : Nat) (f : α → α) : List α :=
  match l[i]? with
  | some a => l.set i (f a)
  | none => l

/-- One iteration of the `for line in inputstream` loop of
`Problem.__init__`: `lineno += 1`, then dispatch on the matched pattern.
`stem` is `problempath.stem`. -/
def processLine (stem : String) (fs : String → String → PTree)
    (st : PState) (l : Line) : Except Crash PState :=
  let st := { st with lineno := st.lineno + 1 }
  match l with
  | .noMatch => .ok st
  | .firstLine pname =>
      if pname ≠ stem then .error (.fatalMismatch pname)
      else .ok { st with problemname := some pname }
  | .startSubmission ty nm =>
      match Submission.make fs ty nm with
      | .error c => .error c
      | .ok (s, logs) =>
          .ok { st with
                arr := st.arr ++ [s], cur := some st.arr.length,
                logs := st.logs ++ logs }
  | .startTestgroup => .ok { st with tcTimes := some [] }
  | .acTcResult t caseName =>
      -- `print(problemname, sub, end="\r")` reads the local `problemname`
      match st.problemname with
      | none => .error (.nameError ("problemname"))
      | some _ =>
          match st.tcTimes with
          | none => .error (.nameError ("tc_times"))
          | some ts =>
              .ok { st with tcTimes := some (ts ++ [t]), tcId := some caseName }
  | .testgroupGrade sample number grade =>
      match st.cur with
      | none => .error .assertionError
      | some idx =>
          match st.tcTimes with
          | none => .error (.nameError ("tc_times"))
          | some ts =>
              let key := if sample then "sample" else toString number
              let v := Verdict.make grade (listMax ts)
              let st := { st with
                arr := modifyIdx st.arr idx
                  (fun s => { s with verdict := odSet s.verdict key v }) }
              if sample then .ok st
              else
                let st :=
                  if grade = "AC" ∧ ts = [] then
                    { st with logs := st.logs ++ [Msg.acNoTestCase st.lineno] }
                  else st
                .ok { st with maxGroupId := max number st.maxGroupId }
  | .endSubmission pts mt =>
      match st.cur with
      | none => .error .assertionError
      | some idx =>
          .ok { st with
            arr := modifyIdx st.arr idx
              (fun s => { s with points := some (pts.getD 0), maxtime := some mt }),
            committed := st.committed ++ [idx] }
  | .timelimit lim safety => .ok { st with timelimits := some (lim, safety) }

/-- The whole line loop. -/
def processLines (stem : String) (fs : String → String → PTree) :
    PState → List Line → Except Crash PState
  | st, [] => .ok st
  | st, l :: ls =>
      match processLine stem fs st l with
      | .error c => .error c
      | .ok st' => processLines stem fs st' ls

/-- `self.groups = list(str(i) for i in range(1, max_group_id + 1))`. -/
def groupNames (n : Nat) : List String :=
  (List.range n).map (fun i => toString (i + 1))

/-- The post-loop key check: one `logging.error` per committed submission
whose verdict keys (in iteration order) differ from `["sample"] + groups`. -/
def keyCheckLogs (groups : List String) (subs : List Submission) : List Msg :=
  subs.filterMap (fun s =>
    if s.verdict.map Prod.fst ≠ "sample" :: groups then
      some (Msg.unexpectedGroupName s.name)
    else none)

/-- Class `Problem` after `__init__` has returned. -/
structure Problem where
  submissions : List Submission
  groups : List String
  timelimits : Option (Nat × Nat)
  deriving Repr

/-- `Problem.__init__(problempath, inputstream)` in full: run the line loop,
derive `groups`, and run the key check.  Returns the finished problem
together with every message logged during construction. -/
def Problem.build (stem : String) (fs : String → String → PTree)
    (ls : List Line) : Except Crash (Problem × List Msg) :=
  match processLines stem fs initState ls with
  | .error c => .error c
  | .ok st =>
      let groups := groupNames st.maxGroupId
      let subs := st.committed.filterMap (fun i => st.arr[i]?)
      .ok ({ submissions := subs, groups := groups, timelimits := st.timelimits },
           st.logs ++ keyCheckLogs groups subs)

/-- The per-submission body of `print_table`'s group loop: for each group
`i`, compare `sub.expected_grade(i)` (evaluated first; may raise `KeyError`)
with `sub.verdict[i].grade` (a dict subscript; may raise `KeyError`),
producing the row's pass/fail glyphs and, for each mismatch, the triple
`(group, actual grade, expected grade)` recorded in `warnings[sub]`. -/
def rowSummary (groups : List String) (s : Submission) :
    Except Crash (List String × List (String × String × String)) :=
  groups.foldlM
    (fun acc i =>
      match s.expectedGrade i with
      | .error c => .error c
      | .ok e =>
          match alookup s.verdict i with
          | none => .error (.keyError i)
          | some v =>
              if e = v.grade then .ok (acc.1 ++ [("y")], acc.2)
              else .ok (acc.1 ++ [("n")], acc.2 ++ [(i, v.grade, e)]))
    ([], [])

/-- `" ".join(all_grades[1:])` where
`all_grades = [v.grade for v in sub.verdict.values()]`. -/
def hintSuggestion (s : Submission) : String :=
  String.intercalate (" ") ((s.verdict.map (fun p => p.2.grade)).drop 1)

/-- `Problem.print_table(self)`, stripped of pure console formatting:
returns each submission's `(name, per-group glyph list)` row together with
the diagnostics logged afterwards (all expectation warnings, in submission
then group order, followed by all `No hint found` suggestions).

The branch condition in the source is `if sub.has_expected_grades:` — the
method is referenced without being called, so the condition is the
bound-method object, which is always truthy; the `else` branch (the neutral
`"."` markers and the suggestion list) is consequently dead code. -/
def printTable (p : Problem) :
    Except Crash (List (String × List String) × List Msg) :=
  match
    p.submissions.foldlM
      (fun (acc : List (String × List String) × List Msg × List (String × String)) s =>
        if true then
          match rowSummary p.groups s with
          | .error c => Except.error c
          | .ok (summary, mismatches) =>
              Except.ok (acc.1 ++ [(s.name, summary)],
                   acc.2.1 ++ mismatches.map
                     (fun m => Msg.unexpectedGrade s.name m.2.1 m.1 m.2.2),
                   acc.2.2)
        else
          Except.ok (acc.1 ++ [(s.name, List.replicate p.groups.length ("."))],
               acc.2.1,
               acc.2.2 ++ [(s.name, hintSuggestion s)]))
      ([], [], [])
  with
  | .error c => .error c
  | .ok (rows, warnMsgs, suggs) =>
      .ok (rows, warnMsgs ++ suggs.map (fun q => Msg.noHint q.1 q.2))

/-- `accepting_subs[k]`: the submissions whose verdict on group key `k` is
AC, in submission order.  Submissions are identified by their index in
`p.submissions`: Python compares the accumulated lists with `==`, which for
`Submission` objects (no `__eq__`) is object identity. -/
def acceptingSubs (p : Problem) (k : String) : List Nat :=
  (List.range p.submissions.length).filter (fun idx =>
    match p.submissions[idx]? with
    | some s =>
        match alookup s.verdict k with
        | some v => v.grade = "AC"
        | none => false
    | none => false)

/-- `itertools.combinations(l, 2)` in order. -/
def pairs {α : Type} : List α → List (α × α)
  | [] => []
  | x :: xs => xs.map (fun y => (x, y)) ++ pairs xs

/-- `Problem.check_distinguished(self)`: the warnings emitted, and whether
the `OK: All secret test groups distinguished` success line is printed.

In the source, `all_distinguished = False` sits in the pair loop's body,
outside the `if` that emits the warning, so it executes once per pair
whether or not the pair was flagged: the flag survives as `True` — and the
success line is printed — only when the group list yields no pairs at all. -/
def checkDistinguished (p : Problem) : List Msg × Bool :=
  let warns := (pairs p.groups).filterMap (fun ij =>
    if acceptingSubs p ij.1 = acceptingSubs p ij.2 then
      some (Msg.notDistinguished ij.1 ij.2)
    else none)
  let all_distinguished := (pairs p.groups).foldl (fun _ _ => false) true
  (warns, all_distinguished)

/-- The sort key order of
`problem.submissions.sort(key=lambda d: (-d.points, d.maxtime))`:
descending points, then ascending max time.  (Committed submissions always
have `points` and `maxtime` set; `getD` totalises the model.) -/
def sortLe (a b : Submission) : Bool :=
  decide (b.points.getD 0 < a.points.getD 0 ∨
    (a.points.getD 0 = b.points.getD 0 ∧ a.maxtime.getD 0 ≤ b.maxtime.getD 0))

/-- Insert `a` after every already-placed element that compares ≤ to it. -/
def insertLe (a : Submission) : List Submission → List Submission
  | [] => [a]
  | b :: bs => if sortLe b a then b :: insertLe a bs else a :: b :: bs

/-- A stable sort by `sortLe` (Python's `list.sort` is stable). -/
def stableSort (l : List Submission) : List Submission :=
  l.foldl (fun acc x => insertLe x acc) []

/-- `main` from the point the `Problem` is built: sort the submissions,
render the table, run the distinguishability check.  Returns the
construction-time diagnostics, the table rows, the reporter diagnostics,
and whether the distinguishability success line was printed. -/
def runAnalysis (stem : String) (fs : String → String → PTree)
    (ls : List Line) :
    Except Crash (List Msg × List (String × List String) × List Msg × Bool) :=
  match Problem.build stem fs ls with
  | .error c => .error c
  | .ok (p0, buildLogs) =>
      let p := { p0 with submissions := stableSort p0.submissions }
      match printTable p with
      | .error c => .error c
      | .ok (rows, tableMsgs) =>
          let (distMsgs, allDist) := checkDistinguished p
          .ok (buildLogs, rows, tableMsgs ++ distMsgs, allDist)

/-- The secret-group number carried by a line (0 for every other line):
the quantity `max_group_id` accumulates. -/
def lineMax : Line → Nat
  | .testgroupGrade sample n _ => if sample then 0 else n
  | _ => 0

/-- The maximum secret-group number observed across a whole stream. -/
def streamMaxGroup (ls : List Line) : Nat :=
  ls.foldl (fun m l => max m (lineMax l)) 0

/-- Is a message the post-loop `Unexpected group name` error? -/
def isGroupNameError : Msg → Bool
  | .unexpectedGroupName _ => true
  | _ => false

/-- A filesystem with no `@EXPECTED_GRADES@` hint anywhere. -/
def noHintFs : String → String → PTree := fun _ _ => .file []

/-- A source tree whose first child has no hint line and whose second child
does (`@EXPECTED_GRADES@ AC`). -/
def twoFileTree : PTree := .dir [.file [none], .file [some [("AC")]]]

/-- A verifier log in which the single committed submission `a.cpp`
(category WA, no hint) gets AC on secret group 1 and nothing on secret
group 2, so the two secret groups are distinguished by it. -/
def distLines : List Line :=
  [.firstLine ("prob"), .startSubmission ("WA") ("a.cpp"), .startTestgroup,
   .testgroupGrade true 0 ("WA"), .startTestgroup, .acTcResult 1 ("c1"),
   .testgroupGrade false 1 ("AC"), .startTestgroup,
   .testgroupGrade false 2 ("WA"), .endSubmission (some 50) 1]

/-- A verifier log with one committed WA-category submission (`d.cpp`, no
hint anywhere in its tree): sample WA, secret group 1 WA. -/
def noHintLines : List Line :=
  [.firstLine ("prob"), .startSubmission ("WA") ("d.cpp"), .startTestgroup,
   .testgroupGrade true 0 ("WA"), .startTestgroup,
   .testgroupGrade false 1 ("WA"), .endSubmission (some 0) 1, .timelimit 1 2]

/-- A finished problem with one secret group and one committed WA-category
submission carrying no expected-grades hint. -/
def noHintProblem : Problem :=
  { submissions :=
      [{ name := "d.cpp", expected_total_grade := "WA",
         verdict := [("sample", Verdict.make ("WA") none),
                     ("1", Verdict.make ("AC") (some 1))],
         points := some 50, maxtime := some 1, expectedGrades := [] }],
    groups := [("1")], timelimits := none }

/-- A filesystem whose every submission tree holds the hint line
`@EXPECTED_GRADES@ WA`. -/
def oneHintFs : String → String → PTree := fun _ _ => .file [some [("WA")]]

/-- The submission record `Submission.make oneHintFs "AC" "x"` builds. -/
def acHintSub : Submission :=
  { name := "x", expected_total_grade := "AC", verdict := [],
    points := none, maxtime := none, expectedGrades := [("1", "WA")] }

/-- A log where the first submission is graded on secret groups 1 and 2 but
the second submission never reaches group 2. -/
def unevenLines : List Line :=
  [.firstLine ("prob"), .startSubmission ("WA") ("a"), .startTestgroup,
   .testgroupGrade false 1 ("WA"), .startTestgroup,
   .testgroupGrade false 2 ("WA"), .endSubmission none 1,
   .startSubmission ("WA") ("b"), .startTestgroup,
   .testgroupGrade false 1 ("WA"), .endSubmission none 1]

/-- A log whose single committed submission is graded only on secret group
1, so its verdict keys lack the `"sample"` entry. -/
def offendLines : List Line :=
  [.startSubmission ("WA") ("a"), .startTestgroup,
   .testgroupGrade false 1 ("WA"), .endSubmission none 1]

/-- The problem `Problem.build` produces from `unevenLines`. -/
def wProb7 : Problem :=
  { submissions :=
      [{ name := "a", expected_total_grade := "WA",
         verdict := [("1", Verdict.make ("WA") none),
                     ("2", Verdict.make ("WA") none)],
         points := some 0, maxtime := some 1, expectedGrades := [] },
       { name := "b", expected_total_grade := "WA",
         verdict := [("1", Verdict.make ("WA") none)],
         points := some 0, maxtime := some 1, expectedGrades := [] }],
    groups := [("1"), ("2")], timelimits := none }

def wLogs7 : List Msg :=
  [Msg.unexpectedGroupName ("a"), Msg.unexpectedGroupName ("b")]

/-- The problem `Problem.build` produces from `offendLines`. -/
def wProb8 : Problem :=
  { submissions :=
      [{ name := "a", expected_total_grade := "WA",
         verdict := [("1", Verdict.make ("WA") none)],
         points := some 0, maxtime := some 1, expectedGrades := [] }],
    groups := [("1")], timelimits := none }

def wLogs8 : List Msg := [Msg.unexpectedGroupName ("a")]

/-- The pre-state of the C6 witness: one current submission `"a"`, the
accumulator initialised and empty. -/
def wSub6 : Submission :=
  { name := "a", expected_total_grade := "WA", verdict := [],
    points := none, maxtime := none, expectedGrades := [] }

def wSt6 : PState :=
  { initState with arr := [wSub6], cur := some 0, tcTimes := some [] }

/-- The post-state of the C6 witness. -/
def wSt6' : PState :=
  { wSt6 with
    lineno := 1,
    arr := [{ wSub6 with
              verdict := odSet wSub6.verdict (toString 1)
                (Verdict.make ("AC") (listMax [])) }],
    logs := [Msg.acNoTestCase 1], maxGroupId := 1 }

/-! ## Theorems -/

/-- C1: the spec claims that whenever no pair of secret groups is flagged as
indistinguishable, a confirmatory success message is printed, including when
two or more groups are all mutually distinguished.  The code refutes this:
for the problem built from `distLines` there are two secret groups, the
submission `a.cpp` is AC on group 1 but not on group 2, so no pair is
flagged (no warnings) — yet the success flag is `false`, because
`all_distinguished = False` executes on every pair iteration.  (The per-pair
warning behaviour itself matches the claim: no warning is emitted here.) -/
theorem c1_no_success_message_despite_distinguished_groups :
    (Problem.build ("prob") noHintFs distLines).map
      (fun q => (q.1.groups, checkDistinguished q.1)) =
    .ok (([("1"), ("2")]), ([], false)) := by
  rfl

/-- C2: the spec claims a committed submission with no effective expectation
gets a neutral `"."` row and an informational suggestion.  The code refutes
this: for `noHintProblem` (one WA-category submission, no hint, one secret
group) the submission has no effective expectation, yet `print_table` takes
the expectation-comparison branch — `if sub.has_expected_grades:` tests the
bound method, which is always truthy — and dies with `KeyError: '1'` from
`self._expected_grades['1']` instead of rendering `"."` and suggesting. -/
theorem c2_missing_expectation_crashes_table :
    printTable noHintProblem = .error (.keyError ("1")) ∧
    noHintProblem.submissions.map Submission.hasExpectedGrades = [false] := by
  exact ⟨rfl, rfl⟩

/-- C3: the spec claims the expected-grades scan recurses through all files
and subdirectories and returns empty only when no file anywhere matches.
The code refutes this: on `twoFileTree` — whose first child has no hint line
and whose second child alone would yield `{"1": "AC"}` — the scan returns
the empty result, because the directory loop's guard `if grades is not
None:` is always true and the loop returns the first child's result. -/
theorem c3_second_child_hint_ignored :
    getExpectedGrades twoFileTree = [] ∧
    getExpectedGrades (PTree.file [some [("AC")]]) = [("1", "AC")] := by
  exact ⟨rfl, rfl⟩

/-- C4: the spec claims every detected anomaly other than the identity
mismatch — including a missing expectation annotation — is logged and the
run continues to a complete report.  The code refutes this: on
`noHintLines` (a well-formed log whose single WA-category submission has no
annotation) the interpreter finishes successfully, but the full run then
dies with `KeyError: '1'` while rendering the report, instead of logging the
informational suggestion and completing. -/
theorem c4_missing_annotation_aborts_run :
    (Problem.build ("prob") noHintFs noHintLines).isOk = true ∧
    runAnalysis ("prob") noHintFs noHintLines = .error (.keyError ("1")) := by
  exact ⟨rfl, rfl⟩

/-- C5: a `Verdict`'s `time` is non-`None` only for grade `"AC"`;
equivalently, constructing a `Verdict` with any other grade discards the
supplied time. -/
theorem c5_verdict_time_invariant (g : String) (t : Option Time) :
    ((Verdict.make g t).time ≠ none → g = "AC") ∧
    (g ≠ "AC" → (Verdict.make g t).time = none) := by
  unfold Verdict.make
  by_cases h : g = "AC" <;> simp [h]

/-- Witness for C5 at grade `"WA"`, time `0.05`-like `some 1`. -/
theorem c5_verdict_time_invariant_witness :
    (Verdict.make ("WA") (some 1)).time = none :=
  (c5_verdict_time_invariant ("WA") (some 1)).2 (by decide)

/-- C10: the group-graded and submission-ended handlers `assert sub is not
None`: in any state whose current-submission slot is empty, matching either
line fails the assertion and terminates processing instead of logging a
recoverable diagnostic. -/
theorem c10_orphan_lines_fail_assertion (stem : String)
    (fs : String → String → PTree) (st : PState) (sample : Bool) (n : Nat)
    (g : String) (pts : Option Nat) (mt : Time) (h : st.cur = none) :
    processLine stem fs st (.testgroupGrade sample n g) = .error .assertionError ∧
    processLine stem fs st (.endSubmission pts mt) = .error .assertionError := by
  unfold processLine
  simp [h]

/-- Witness for C10: a group-graded and a submission-ended line arriving in
the initial state (before any submission-started line). -/
theorem c10_orphan_lines_fail_assertion_witness :
    processLine ("p") noHintFs initState (.testgroupGrade false 1 ("AC")) =
      .error .assertionError ∧
    processLine ("p") noHintFs initState (.endSubmission none 1) =
      .error .assertionError :=
  c10_orphan_lines_fail_assertion ("p") noHintFs initState false 1 ("AC")
    none 1 (by rfl)

/-- `OrderedDict` assignment then subscript at the same key yields the
assigned value. -/
theorem alookup_odSet {β : Type} (d : List (String × β)) (k : String) (v : β) :
    alookup (odSet d k v) k = some v := by
  induction d with
  | nil => simp [odSet, alookup]
  | cons hd tl ih =>
      obtain ⟨k', v'⟩ := hd
      by_cases hk : k' = k
      · simp [odSet, hk, alookup]
      · simp [odSet, hk, alookup, ih]

theorem modifyIdx_getElem? {α : Type} (l : List α) (i : Nat) (f : α → α) :
    (modifyIdx l i f)[i]? = (l[i]?).map f := by
  unfold modifyIdx
  cases h : l[i]? with
  | none => simp [h]
  | some a =>
      obtain ⟨hlt, -⟩ := List.getElem?_eq_some.1 h
      exact List.getElem?_set_eq_of_lt (f a) hlt

/-- C9: a submission filed under the `"AC"` category has effective expected
grade `"AC"` on every secret group regardless of any annotation in its
source tree, and exactly one redundancy warning is logged when such an
annotation is present (and none when it is absent). -/
theorem c9_ac_category_forces_ac_expectation (fs : String → String → PTree)
    (nm : String) (s : Submission) (logs : List Msg)
    (h : Submission.make fs ("AC") nm = .ok (s, logs)) :
    (∀ i, s.expectedGrade i = .ok ("AC")) ∧
    (getExpectedGrades (fs ("AC") nm) ≠ [] → logs = [Msg.redundantGrades nm]) ∧
    (getExpectedGrades (fs ("AC") nm) = [] → logs = []) := by
  unfold Submission.make subdir at h
  simp only [if_pos rfl, Except.ok.injEq, Prod.mk.injEq] at h
  obtain ⟨rfl, rfl⟩ := h
  refine ⟨fun i => ?_, fun hne => ?_, fun he => ?_⟩
  · unfold Submission.expectedGrade
    simp
  · rw [if_pos]
    exact ⟨List.length_pos.2 hne, trivial⟩
  · rw [if_neg]
    simp [he]

/-- Witness for C9: a submission in the AC category whose tree carries
`@EXPECTED_GRADES@ WA` still has effective expectation `"AC"` on group 1,
and its construction logged the single redundancy warning. -/
theorem c9_ac_category_forces_ac_expectation_witness :
    acHintSub.expectedGrade ("1") = .ok ("AC") ∧
    ([Msg.redundantGrades ("x")] : List Msg) = [Msg.redundantGrades ("x")] :=
  ⟨(c9_ac_category_forces_ac_expectation oneHintFs ("x") acHintSub
      [Msg.redundantGrades ("x")] (by rfl)).1 ("1"),
   (c9_ac_category_forces_ac_expectation oneHintFs ("x") acHintSub
      [Msg.redundantGrades ("x")] (by rfl)).2.1 (by decide)⟩

/-- C6: dispatching a secret-group-graded line in a state with a current
submission `s` (at index `idx`) and an initialised case-time accumulator
`ts` succeeds and stores, under that group's key, the verdict built from the
grade and `max ts` (absent when `ts` is empty); when the grade is `"AC"` and
`ts` is empty, exactly one `acNoTestCase` error is appended to the log and
the stored verdict still has grade `"AC"` with absent time; in every other
case the log is unchanged. -/
theorem c6_secret_ac_without_cases (stem : String)
    (fs : String → String → PTree) (st st' : PState) (idx : Nat)
    (s : Submission) (ts : List Time) (n : Nat) (grade : String)
    (hc : st.cur = some idx) (ht : st.tcTimes = some ts)
    (hs : st.arr[idx]? = some s)
    (hrun : processLine stem fs st (.testgroupGrade false n grade) = .ok st') :
    st'.arr[idx]? =
      some { s with verdict :=
               odSet s.verdict (toString n) (Verdict.make grade (listMax ts)) } ∧
    alookup (odSet s.verdict (toString n) (Verdict.make grade (listMax ts)))
      (toString n) = some (Verdict.make grade (listMax ts)) ∧
    (grade = "AC" → (Verdict.make grade (listMax ts)).time = listMax ts) ∧
    (grade = "AC" → ts = [] →
      st'.logs = st.logs ++ [Msg.acNoTestCase (st.lineno + 1)] ∧
      (Verdict.make grade (listMax ts)).time = none) ∧
    (¬(grade = "AC" ∧ ts = []) → st'.logs = st.logs) := by
  by_cases hcase : grade = "AC" ∧ ts = []
  · obtain ⟨rfl, rfl⟩ := hcase
    simp [processLine, hc, ht] at hrun
    subst hrun
    refine ⟨by simp [modifyIdx_getElem?, hs], alookup_odSet _ _ _, ?_, ?_, ?_⟩
    · intro _
      simp [Verdict.make]
    · intro _ _
      exact ⟨by simp, by simp [Verdict.make, listMax]⟩
    · intro hcon
      exact absurd ⟨rfl, rfl⟩ hcon
  · simp [processLine, hc, ht, hcase] at hrun
    subst hrun
    refine ⟨by simp [modifyIdx_getElem?, hs], alookup_odSet _ _ _, ?_, ?_, ?_⟩
    · intro hg
      simp [Verdict.make, hg]
    · intro hg hts
      exact absurd ⟨hg, hts⟩ hcase
    · intro _
      simp

/-- Witness for C6: an `AC` grade for secret group 1 arriving with an empty
accumulator stores `AC` with absent time and appends exactly one
`acNoTestCase` error. -/
theorem c6_secret_ac_without_cases_witness :
    alookup (odSet wSub6.verdict (toString 1) (Verdict.make ("AC") (listMax [])))
      (toString 1) = some (Verdict.make ("AC") (listMax [])) ∧
    wSt6'.logs = wSt6.logs ++ [Msg.acNoTestCase (wSt6.lineno + 1)] ∧
    (Verdict.make ("AC") (listMax ([] : List Time))).time = none :=
  ⟨(c6_secret_ac_without_cases ("p") noHintFs wSt6 wSt6' 0 wSub6 [] 1 ("AC")
      (by rfl) (by rfl) (by rfl) (by rfl)).2.1,
   (c6_secret_ac_without_cases ("p") noHintFs wSt6 wSt6' 0 wSub6 [] 1 ("AC")
      (by rfl) (by rfl) (by rfl) (by rfl)).2.2.2.1 rfl rfl⟩

theorem processLine_maxGroupId (stem : String) (fs : String → String → PTree)
    (st : PState) (l : Line) (st' : PState)
    (h : processLine stem fs st l = .ok st') :
    st'.maxGroupId = max st.maxGroupId (lineMax l) := by
  cases l with
  | firstLine pname =>
      simp only [processLine] at h
      split at h
      · exact Except.noConfusion h
      · injection h with h
        subst h
        simp [lineMax]
  | startSubmission ty nm =>
      simp only [processLine] at h
      split at h
      · exact Except.noConfusion h
      · injection h with h
        subst h
        simp [lineMax]
  | startTestgroup =>
      simp only [processLine] at h
      injection h with h
      subst h
      simp [lineMax]
  | acTcResult t caseName =>
      simp only [processLine] at h
      split at h
      · exact Except.noConfusion h
      · split at h
        · exact Except.noConfusion h
        · injection h with h
          subst h
          simp [lineMax]
  | testgroupGrade sample n grade =>
      simp only [processLine] at h
      split at h
      · exact Except.noConfusion h
      · split at h
        · exact Except.noConfusion h
        · cases sample with
          | true =>
              rw [if_pos (rfl : true = true)] at h
              injection h with h
              subst h
              simp [lineMax]
          | false =>
              simp only [Bool.false_eq_true, if_false] at h
              split at h <;>
                (injection h with h
                 subst h
                 simp [lineMax, Nat.max_comm])
  | endSubmission pts mt =>
      simp only [processLine] at h
      split at h
      · exact Except.noConfusion h
      · injection h with h
        subst h
        simp [lineMax]
  | timelimit lim safety =>
      simp only [processLine] at h
      injection h with h
      subst h
      simp [lineMax]
  | noMatch =>
      simp only [processLine] at h
      injection h with h
      subst h
      simp [lineMax]

theorem processLines_maxGroupId (stem : String) (fs : String → String → PTree) :
    ∀ (ls : List Line) (st st' : PState),
      processLines stem fs st ls = .ok st' →
      st'.maxGroupId = ls.foldl (fun m l => max m (lineMax l)) st.maxGroupId := by
  intro ls
  induction ls with
  | nil =>
      intro st st' h
      simp only [processLines] at h
      injection h with h
      subst h
      rfl
  | cons l rest ih =>
      intro st st' h
      simp only [processLines] at h
      cases hp : processLine stem fs st l with
      | error c =>
          rw [hp] at h
          exact Except.noConfusion h
      | ok st1 =>
          rw [hp] at h
          rw [List.foldl_cons, ih st1 st' h, processLine_maxGroupId stem fs st l st1 hp]

/-- C7: whenever `Problem.__init__` finishes, the `groups` attribute is
`["1", ..., "N"]` for `N` the maximum secret-group number over every
group-graded line of the whole stream (independently of which submission the
line belonged to). -/
theorem c7_groups_span_observed_maximum (stem : String)
    (fs : String → String → PTree) (ls : List Line) (p : Problem)
    (logs : List Msg) (h : Problem.build stem fs ls = .ok (p, logs)) :
    p.groups = (List.range (streamMaxGroup ls)).map (fun i => toString (i + 1)) := by
  unfold Problem.build at h
  cases hp : processLines stem fs initState ls with
  | error c =>
      rw [hp] at h
      exact Except.noConfusion h
  | ok st =>
      rw [hp] at h
      simp only [Except.ok.injEq, Prod.mk.injEq] at h
      obtain ⟨rfl, -⟩ := h
      show groupNames st.maxGroupId = _
      rw [processLines_maxGroupId stem fs ls initState st hp]
      rfl

/-- Witness for C7: on `unevenLines` — where submission `"b"` never reaches
group 2 — the groups are still `["1", "2"]`, matching the stream maximum. -/
theorem c7_groups_span_observed_maximum_witness :
    wProb7.groups =
      (List.range (streamMaxGroup unevenLines)).map (fun i => toString (i + 1)) :=
  c7_groups_span_observed_maximum ("prob") noHintFs unevenLines wProb7 wLogs7
    (by rfl)

theorem submissionMake_no_group_name_error (fs : String → String → PTree)
    (ty nm : String) (s : Submission) (logs : List Msg)
    (h : Submission.make fs ty nm = .ok (s, logs)) :
    logs.countP isGroupNameError = 0 := by
  unfold Submission.make at h
  split at h
  · exact Except.noConfusion h
  · simp only [Except.ok.injEq, Prod.mk.injEq] at h
    obtain ⟨-, rfl⟩ := h
    split <;> simp [isGroupNameError]

theorem processLine_no_group_name_error (stem : String)
    (fs : String → String → PTree) (st : PState) (l : Line) (st' : PState)
    (h : processLine stem fs st l = .ok st') :
    st'.logs.countP isGroupNameError = st.logs.countP isGroupNameError := by
  cases l with
  | firstLine pname =>
      simp only [processLine] at h
      split at h
      · exact Except.noConfusion h
      · injection h with h
        subst h
        rfl
  | startSubmission ty nm =>
      simp only [processLine] at h
      split at h
      · exact Except.noConfusion h
      · rename_i s logs heq
        injection h with h
        subst h
        simp [List.countP_append,
          submissionMake_no_group_name_error fs ty nm s logs heq]
  | startTestgroup =>
      simp only [processLine] at h
      injection h with h
      subst h
      rfl
  | acTcResult t caseName =>
      simp only [processLine] at h
      split at h
      · exact Except.noConfusion h
      · split at h
        · exact Except.noConfusion h
        · injection h with h
          subst h
          rfl
  | testgroupGrade sample n grade =>
      simp only [processLine] at h
      split at h
      · exact Except.noConfusion h
      · split at h
        · exact Except.noConfusion h
        · cases sample with
          | true =>
              rw [if_pos (rfl : true = true)] at h
              injection h with h
              subst h
              rfl
          | false =>
              simp only [Bool.false_eq_true, if_false] at h
              split at h
              · injection h with h
                subst h
                simp [List.countP_append, isGroupNameError]
              · injection h with h
                subst h
                rfl
  | endSubmission pts mt =>
      simp only [processLine] at h
      split at h
      · exact Except.noConfusion h
      · injection h with h
        subst h
        rfl
  | timelimit lim safety =>
      simp only [processLine] at h
      injection h with h
      subst h
      rfl
  | noMatch =>
      simp only [processLine] at h
      injection h with h
      subst h
      rfl

theorem processLines_no_group_name_error (stem : String)
    (fs : String → String → PTree) :
    ∀ (ls : List Line) (st st' : PState),
      processLines stem fs st ls = .ok st' →
      st'.logs.countP isGroupNameError = st.logs.countP isGroupNameError := by
  intro ls
  induction ls with
  | nil =>
      intro st st' h
      simp only [processLines] at h
      injection h with h
      subst h
      rfl
  | cons l rest ih =>
      intro st st' h
      simp only [processLines] at h
      cases hp : processLine stem fs st l with
      | error c =>
          rw [hp] at h
          exact Except.noConfusion h
      | ok st1 =>
          rw [hp] at h
          rw [ih st1 st' h, processLine_no_group_name_error stem fs st l st1 hp]

theorem keyCheckLogs_count (groups : List String) :
    ∀ subs : List Submission,
      (keyCheckLogs groups subs).countP isGroupNameError =
        subs.countP (fun s => decide (s.verdict.map Prod.fst ≠ "sample" :: groups)) := by
  intro subs
  induction subs with
  | nil => rfl
  | cons s rest ih =>
      by_cases hs : s.verdict.map Prod.fst = "sample" :: groups
      · simp [keyCheckLogs, hs, ih, List.countP_cons] at *
        simpa [keyCheckLogs] using ih
      · simp [keyCheckLogs, hs, isGroupNameError, List.countP_cons] at *
        simpa [keyCheckLogs, isGroupNameError] using ih

/-- C8: when the interpreter finishes, the number of `Unexpected group name`
errors in the log equals the number of committed submissions whose verdict
keys differ (order-sensitively) from `["sample"] + groups` — exactly one per
offending submission, none for conforming ones — and the post-loop check
never aborts: whenever the line loop succeeds, the whole construction
succeeds and the `Problem` is available for reporting. -/
theorem c8_one_key_error_per_offending_submission (stem : String)
    (fs : String → String → PTree) (ls : List Line) (p : Problem)
    (logs : List Msg) :
    (Problem.build stem fs ls = .ok (p, logs) →
      logs.countP isGroupNameError =
        p.submissions.countP
          (fun s => decide (s.verdict.map Prod.fst ≠ "sample" :: p.groups))) ∧
    ((processLines stem fs initState ls).isOk = true →
      (Problem.build stem fs ls).isOk = true) := by
  constructor
  · intro h
    unfold Problem.build at h
    cases hp : processLines stem fs initState ls with
    | error c =>
        rw [hp] at h
        exact Except.noConfusion h
    | ok st =>
        rw [hp] at h
        simp only [Except.ok.injEq, Prod.mk.injEq] at h
        obtain ⟨rfl, rfl⟩ := h
        show (st.logs ++ keyCheckLogs _ _).countP _ = _
        rw [List.countP_append,
          processLines_no_group_name_error stem fs ls initState st hp,
          keyCheckLogs_count]
        simp [initState]
  · intro h
    unfold Problem.build
    cases hp : processLines stem fs initState ls with
    | error c =>
        rw [hp] at h
        exact Bool.noConfusion h
    | ok st =>
        rfl

/-- Witness for C8: on `offendLines` the single committed submission lacks
the `"sample"` key, and exactly one `Unexpected group name` error is in the
log. -/
theorem c8_one_key_error_per_offending_submission_witness :
    wLogs8.countP isGroupNameError =
      wProb8.submissions.countP
        (fun s => decide (s.verdict.map Prod.fst ≠ "sample" :: wProb8.groups)) :=
  (c8_one_key_error_per_offending_submission ("prob") noHintFs offendLines
    wProb8 wLogs8).1 (by rfl)

end ATG
